import Mathlib

/-!
Verification of the python-memcache client core against its specification.

The Python sources under `memcache/` are shallowly embedded: byte strings
become `List Nat` (one entry per byte), fallible code returns
`Except PyErr`, and the network is made explicit (a response byte stream is
a `List Nat`; the pool's blocking queue take is an oracle argument).
Each embedded definition mirrors one Python function and keeps its name
where Lean allows it.
-/

/-- Byte strings: one `Nat` per byte (ASCII values for the protocol text). -/
abbrev Bytes := List Nat

/-- Byte string literal helper: the ASCII bytes of a Lean string. -/
def bs (s : String) : Bytes := s.toList.map Char.toNat

/-- ASCII space. -/
def SP : Nat := 32

/-- ASCII line feed. -/
def LF : Nat := 10

/-- The CRLF terminator `b"\r\n"`. -/
def CRLF : Bytes := [13, 10]

/-- The bytes Python's `bytes.split()` (no argument) treats as whitespace. -/
def isPySpace (b : Nat) : Bool :=
  b = 32 || b = 9 || b = 10 || b = 13 || b = 11 || b = 12

/-- Accumulator form of Python's `bytes.split()`: split on runs of ASCII
whitespace, dropping empty tokens. `cur` holds the current token reversed. -/
def pySplitAux : Bytes → Bytes → List Bytes
  | [], cur => if cur = [] then [] else [cur.reverse]
  | b :: rest, cur =>
    if isPySpace b then
      if cur = [] then pySplitAux rest []
      else cur.reverse :: pySplitAux rest []
    else pySplitAux rest (b :: cur)

/-- Python `line.split()` on bytes. -/
def pySplit (l : Bytes) : List Bytes := pySplitAux l []

/-- Python `l.lstrip(chars)`: drop leading bytes drawn from the SET `chars`
(this is a character-set strip, not a prefix strip). -/
def lstripSet (chars : Bytes) (l : Bytes) : Bytes :=
  l.dropWhile (fun b => chars.contains b)

/-- Python `l.rstrip()` with no argument: drop trailing ASCII whitespace. -/
def rstripWs (l : Bytes) : Bytes :=
  (l.reverse.dropWhile isPySpace).reverse

/-- Python `l.lstrip()` with no argument. -/
def lstripWs (l : Bytes) : Bytes := l.dropWhile isPySpace

/-- The digit bytes `'0'..'9'`. -/
def isDigitByte (b : Nat) : Bool := 48 ≤ b && b ≤ 57

/-- Core of Python `int()` on an unsigned digit string: digits with single
underscores allowed between digits; `none` when malformed or empty. -/
def pyIntCore (l : Bytes) : Option Nat :=
  let step : Option (Nat × Bool) → Nat → Option (Nat × Bool) := fun st b =>
    match st with
    | none => none
    | some (acc, lastDigit) =>
      if isDigitByte b then some (acc * 10 + (b - 48), true)
      else if b = 95 then (if lastDigit then some (acc, false) else none)
      else none
  match l.foldl step (some (0, false)) with
  | some (acc, true) => some acc
  | _ => none

/-- Python `int(bytes)`: surrounding whitespace stripped, optional sign,
ASCII decimal digits; `none` stands for the `ValueError` it raises. -/
def pyInt (l : Bytes) : Option Int :=
  let t := rstripWs (lstripWs l)
  match t with
  | 43 :: rest => (pyIntCore rest).map (fun n => (n : Int))
  | 45 :: rest => (pyIntCore rest).map (fun n => -(n : Int))
  | _ => (pyIntCore t).map (fun n => (n : Int))

/-- The Python exceptions the embedded code can raise or interact with.
`memcacheError` is the library's only error class (`errors.MemcacheError`);
the rest are built-in / stdlib exception classes, plus `other` for
arbitrary exceptions a caller's block may raise. -/
inductive PyErr where
  | memcacheError (msg : Bytes)
  | indexError
  | valueError
  | connectionResetError
  | brokenPipeError
  | queueEmpty
  | asyncioQueueEmpty
  | asyncioTimeoutError
  | runtimeError
  | other (tag : Nat)
deriving DecidableEq

/-- Python `str(n)` for a byte value `n` (an `int` in Python 3): the DECIMAL
DIGITS of the numeric byte value, e.g. `str(116) = "116"`. -/
def strOfNat (n : Nat) : List Char := (Nat.repr n).toList

/-- Python `str.isdigit()`: true iff the string is nonempty and all digits. -/
def pyStrIsdigit (cs : List Char) : Bool := !cs.isEmpty && cs.all Char.isDigit

/-- `meta_command.MetaCommand`: an in-memory wire command. -/
structure MetaCommand where
  cm : Bytes
  key : Bytes
  datalen : Option Int := none
  flags : List Bytes := []
  value : Option Bytes := none
deriving DecidableEq

/-- `meta_command.MetaResult`: a parsed response. -/
structure MetaResult where
  rc : Bytes
  datalen : Option Int := none
  flags : List Bytes := []
  value : Option Bytes := none
deriving DecidableEq

/-- Python `b" ".join(xs)`. -/
def joinSP : List Bytes → Bytes
  | [] => []
  | [x] => x
  | x :: xs => x ++ SP :: joinSP xs

/-- Python `str(n).encode("utf-8")` for an int `n`. -/
def strBytesOfInt (n : Int) : Bytes := bs (toString n)

/-- `MetaCommand.dump_header`: `b" ".join([cm, key] (+ [datalen]) + flags
+ [b"\r\n"])` — note the CRLF is one of the joined parts, so a space
precedes it. -/
def dump_header (c : MetaCommand) : Bytes :=
  match c.datalen with
  | none => joinSP ([c.cm, c.key] ++ c.flags ++ [CRLF])
  | some n => joinSP ([c.cm, c.key, strBytesOfInt n] ++ c.flags ++ [CRLF])

/-- `MetaResult.load_header`: tokenize the response line; `CLIENT_ERROR`
raises `MemcacheError` with `line.lstrip(b"CLIENT_ERROR ").rstrip()`; else
the second token is taken as `datalen` when `str(parts[1][0]).isdigit()`
(note: `parts[1][0]` is an `int` in Python 3, so this tests the decimal
rendering of the byte VALUE, not the byte as a character). -/
def load_header (line : Bytes) : Except PyErr MetaResult :=
  match pySplit line with
  | [] => Except.error PyErr.indexError
  | rc :: restParts =>
    if rc = bs ("CLIENT_ERROR") then
      Except.error (PyErr.memcacheError (rstripWs (lstripSet (bs ("CLIENT_ERROR ")) line)))
    else
      match restParts with
      | [] => Except.ok { rc := rc }
      | p1 :: rest2 =>
        match p1 with
        | [] => Except.error PyErr.indexError
        | b0 :: _ =>
          if pyStrIsdigit (strOfNat b0) then
            match pyInt p1 with
            | none => Except.error PyErr.valueError
            | some n => Except.ok { rc := rc, datalen := some n, flags := rest2 }
          else
            Except.ok { rc := rc, flags := p1 :: rest2 }

/-- Decidable equality for `Except`, so concrete runs can be settled by
`decide`. -/
instance {e a : Type} [DecidableEq e] [DecidableEq a] : DecidableEq (Except e a) := fun x y =>
  match x, y with
  | Except.ok u, Except.ok v =>
    if h : u = v then Decidable.isTrue (by rw [h]) else Decidable.isFalse (by simp [h])
  | Except.error u, Except.error v =>
    if h : u = v then Decidable.isTrue (by rw [h]) else Decidable.isFalse (by simp [h])
  | Except.ok _, Except.error _ => Decidable.isFalse (by simp)
  | Except.error _, Except.ok _ => Decidable.isFalse (by simp)

/-- The bytes `Connection._execute_meta_command` writes for one command:
`self.stream.write(command.dump_header())` then, only when `command.value`
is truthy (present AND nonempty), `self.stream.write(command.value + b"\r\n")`. -/
def serializeCommand (c : MetaCommand) : Bytes :=
  dump_header c ++
    (match c.value with
     | none => []
     | some v => if v = [] then [] else v ++ CRLF)

/-- Python `stream.readline()` on a byte stream: the line up to and
including the first `\n` (all remaining bytes at EOF), and the rest. -/
def readline : Bytes → Bytes × Bytes
  | [] => ([], [])
  | b :: rest =>
    if b = LF then ([b], rest)
    else
      let p := readline rest
      (b :: p.1, p.2)

/-- Python `stream.read(n)` on a blocking socket file: exactly `n` bytes
unless EOF comes first; a negative `n` reads everything. -/
def readN (n : Int) (s : Bytes) : Bytes × Bytes :=
  if n < 0 then (s, [])
  else (s.take n.toNat, s.drop n.toNat)

/-- `Connection._receive_meta_result` over an explicit response stream:
read one header line, parse it; on `rc == b"VA"` require `datalen`, read
`datalen` payload bytes, then read 2 more bytes (the trailer) WITHOUT
verifying them. Returns the result and the unconsumed stream. -/
def receive_meta_result (s : Bytes) : Except PyErr (MetaResult × Bytes) :=
  let p := readline s
  match load_header p.1 with
  | Except.error e => Except.error e
  | Except.ok r =>
    if r.rc = bs ("VA") then
      match r.datalen with
      | none => Except.error (PyErr.memcacheError (bs ("invalid response: missing datalen")))
      | some n =>
        let q := readN n p.2
        let t := readN 2 q.2
        Except.ok ({ r with value := some q.1 }, t.2)
    else
      Except.ok (r, p.2)

/-- One attempt of `Connection._execute_meta_command`: it either returns a
parsed result or raises. -/
inductive Attempt where
  | ok (r : MetaResult)
  | raise (e : PyErr)

/-- The exception classes caught by `Connection.execute_meta_command`'s
`except (IndexError, ConnectionResetError, BrokenPipeError)` clause (an
empty line on read surfaces as `IndexError` inside `load_header`). -/
def retriableErr : PyErr → Bool
  | PyErr.indexError => true
  | PyErr.connectionResetError => true
  | PyErr.brokenPipeError => true
  | _ => false

/-- `Connection.execute_meta_command`: run `_execute_meta_command(command)`;
on a retriable exception, `self._connect()` and run it once more, letting
any second exception propagate unchanged. `run i cmd` is the outcome of
the i-th attempt; the returned list records the commands attempted. -/
def execute_meta_command (run : Nat → MetaCommand → Attempt) (cmd : MetaCommand) :
    Except PyErr MetaResult × List MetaCommand :=
  match run 0 cmd with
  | Attempt.ok r => (Except.ok r, [cmd])
  | Attempt.raise e =>
    if retriableErr e then
      match run 1 cmd with
      | Attempt.ok r => (Except.ok r, [cmd, cmd])
      | Attempt.raise e2 => (Except.error e2, [cmd, cmd])
    else (Except.error e, [cmd])

/-- State of a `Pool`: the `_size` counter and the idle FIFO (front of the
list = next connection `get_nowait` hands out; connections are labelled by
numbers). -/
structure PoolState where
  size : Nat
  fifo : List Nat
deriving DecidableEq

/-- Outcome of the caller's `with pool.get() as c:` block. -/
inductive BodyOut where
  | normal
  | raised (e : PyErr)

/-- Python's `if self._max_size and self._size >= self._max_size:` —
`None` and `0` are falsy. -/
def maxReached : Option Nat → Nat → Bool
  | none, _ => false
  | some m, size => if m = 0 then false else decide (m ≤ size)

/-- The `except queue.Empty:` branch of `Pool.get`: when the cap is
reached, block on the idle queue (`arrival` is what the queue yields
within the timeout, `none` meaning `queue.Empty` is raised); otherwise
increment `_size` under the lock and create a fresh connection. In every
sub-path the connection is enqueued only after the body returns normally. -/
def poolGetEmptyBranch (maxSize : Option Nat) (st : PoolState) (fresh : Nat)
    (arrival : Option Nat) (body : Nat → BodyOut) : Except PyErr Unit × PoolState :=
  if maxReached maxSize st.size then
    match arrival with
    | none => (Except.error PyErr.queueEmpty, st)
    | some c2 =>
      match body c2 with
      | BodyOut.normal => (Except.ok (), { st with fifo := st.fifo ++ [c2] })
      | BodyOut.raised e => (Except.error e, st)
  else
    match body fresh with
    | BodyOut.normal => (Except.ok (), { size := st.size + 1, fifo := st.fifo ++ [fresh] })
    | BodyOut.raised e => (Except.error e, { st with size := st.size + 1 })

/-- `Pool.get` as a context manager run to completion around a caller's
block. With a nonempty FIFO, `get_nowait` hands out the front connection
and a normal block re-enqueues it after the `yield`. A block exception is
thrown into the generator at the yield point (contextlib `gen.throw`): any
class but `queue.Empty` is uncaught there and propagates, the connection
neither re-enqueued nor discarded. A block-raised `queue.Empty` is caught
by the `except queue.Empty:` clause, whose branch then runs inside
`__exit__`: a timeout of the blocked `get` raises a fresh `queue.Empty`
(a different object, so contextlib re-raises it), while reaching the
branch's own `yield` makes contextlib raise
`RuntimeError("generator didn't stop after throw()")` — after the branch's
side effects (a dequeued arrival is consumed; the size increment and
connection creation happen) with the caller's block never re-run. -/
def poolGet (maxSize : Option Nat) (st : PoolState) (fresh : Nat)
    (arrival : Option Nat) (body : Nat → BodyOut) : Except PyErr Unit × PoolState :=
  match st.fifo with
  | [] => poolGetEmptyBranch maxSize st fresh arrival body
  | c :: rest =>
    match body c with
    | BodyOut.normal => (Except.ok (), { st with fifo := rest ++ [c] })
    | BodyOut.raised e =>
      if e = PyErr.queueEmpty then
        if maxReached maxSize st.size then
          match arrival with
          | none => (Except.error PyErr.queueEmpty, { st with fifo := rest })
          | some _ => (Except.error PyErr.runtimeError, { st with fifo := rest })
        else (Except.error PyErr.runtimeError, { size := st.size + 1, fifo := rest })
      else (Except.error e, { st with fifo := rest })

/-- `AsyncPool.get`: same shape as `Pool.get`, but the blocked acquisition
uses `asyncio.wait_for`, whose timeout raises `asyncio.TimeoutError`, and
the caught class is `asyncio.QueueEmpty`. -/
def asyncPoolGetEmptyBranch (maxSize : Option Nat) (st : PoolState) (fresh : Nat)
    (arrival : Option Nat) (body : Nat → BodyOut) : Except PyErr Unit × PoolState :=
  if maxReached maxSize st.size then
    match arrival with
    | none => (Except.error PyErr.asyncioTimeoutError, st)
    | some c2 =>
      match body c2 with
      | BodyOut.normal => (Except.ok (), { st with fifo := st.fifo ++ [c2] })
      | BodyOut.raised e => (Except.error e, st)
  else
    match body fresh with
    | BodyOut.normal => (Except.ok (), { size := st.size + 1, fifo := st.fifo ++ [fresh] })
    | BodyOut.raised e => (Except.error e, { st with size := st.size + 1 })

/-- `AsyncPool.get` run around a caller's block (see `poolGet`): the
caught class at the first yield is `asyncio.QueueEmpty`, the blocked wait
times out with `asyncio.TimeoutError`, and reaching the second yield after
an `athrow` makes contextlib raise `RuntimeError`. -/
def asyncPoolGet (maxSize : Option Nat) (st : PoolState) (fresh : Nat)
    (arrival : Option Nat) (body : Nat → BodyOut) : Except PyErr Unit × PoolState :=
  match st.fifo with
  | [] => asyncPoolGetEmptyBranch maxSize st fresh arrival body
  | c :: rest =>
    match body c with
    | BodyOut.normal => (Except.ok (), { st with fifo := rest ++ [c] })
    | BodyOut.raised e =>
      if e = PyErr.asyncioQueueEmpty then
        if maxReached maxSize st.size then
          match arrival with
          | none => (Except.error PyErr.asyncioTimeoutError, { st with fifo := rest })
          | some _ => (Except.error PyErr.runtimeError, { st with fifo := rest })
        else (Except.error PyErr.runtimeError, { size := st.size + 1, fifo := rest })
      else (Except.error e, { st with fifo := rest })

/-- A request flag `b"X%d" % n` (opcode byte followed by a decimal). -/
def flagTok (c : Char) (n : Int) : Bytes := c.toNat :: strBytesOfInt n

/-- The dictionary `experiment.meta_client._parse_flags` builds (fixed key
set, so a structure of options; booleans that are only ever set to `True`
start `false`). -/
structure ParsedFlags where
  client_flags : Option Int := none
  cas_token : Option Int := none
  ttl : Option Int := none
  last_access : Option Int := none
  size : Option Int := none
  hit_before : Option Bool := none
  won_recache : Bool := false
  is_stale : Bool := false
  already_won : Bool := false
  key : Option Bytes := none
deriving DecidableEq

/-- One iteration of `_parse_flags`' loop: empty flags are skipped, the
first byte selects the field, `int(rest)` may raise `ValueError`. -/
def parse_flags_step (acc : ParsedFlags) (flag : Bytes) : Except PyErr ParsedFlags :=
  match flag with
  | [] => Except.ok acc
  | p :: rest =>
    if p = 'f'.toNat then
      match pyInt rest with
      | some n => Except.ok { acc with client_flags := some n }
      | none => Except.error PyErr.valueError
    else if p = 'c'.toNat then
      match pyInt rest with
      | some n => Except.ok { acc with cas_token := some n }
      | none => Except.error PyErr.valueError
    else if p = 't'.toNat then
      match pyInt rest with
      | some n => Except.ok { acc with ttl := some n }
      | none => Except.error PyErr.valueError
    else if p = 'l'.toNat then
      match pyInt rest with
      | some n => Except.ok { acc with last_access := some n }
      | none => Except.error PyErr.valueError
    else if p = 's'.toNat then
      match pyInt rest with
      | some n => Except.ok { acc with size := some n }
      | none => Except.error PyErr.valueError
    else if p = 'h'.toNat then
      match pyInt rest with
      | some n => Except.ok { acc with hit_before := some (n ≠ 0) }
      | none => Except.error PyErr.valueError
    else if p = 'W'.toNat then Except.ok { acc with won_recache := true }
    else if p = 'X'.toNat then Except.ok { acc with is_stale := true }
    else if p = 'Z'.toNat then Except.ok { acc with already_won := true }
    else if p = 'k'.toNat then Except.ok { acc with key := some rest }
    else Except.ok acc

/-- `experiment.meta_client._parse_flags`. -/
def parse_flags (flags : List Bytes) : Except PyErr ParsedFlags :=
  flags.foldlM parse_flags_step {}

/-- `experiment.result.GetResult`, generic over the unmarshalled value type. -/
structure GetResult (α : Type) where
  value : Option α := none
  key : Option Bytes := none
  cas_token : Option Int := none
  ttl : Option Int := none
  last_access : Option Int := none
  size : Option Int := none
  hit_before : Option Bool := none
  is_stale : Bool := false
  won_recache : Bool := false
  already_won : Bool := false
deriving DecidableEq

/-- The keyword options of `MetaClient.get`. -/
structure GetOpts where
  return_cas : Bool := false
  return_ttl : Bool := false
  return_last_access : Bool := false
  return_size : Bool := false
  return_hit_before : Bool := false
  update_ttl : Option Int := none
  no_lru_bump : Bool := false
  vivify_on_miss_ttl : Option Int := none
  recache_ttl_threshold : Option Int := none
  check_cas : Option Int := none
deriving DecidableEq

/-- The `mg` flag list `MetaClient.get` builds, in the code's append order. -/
def mgFlags (o : GetOpts) : List Bytes :=
  [bs ("v"), bs ("f")]
  ++ (if o.return_cas then [bs ("c")] else [])
  ++ (if o.return_ttl then [bs ("t")] else [])
  ++ (if o.return_last_access then [bs ("l")] else [])
  ++ (if o.return_size then [bs ("s")] else [])
  ++ (if o.return_hit_before then [bs ("h")] else [])
  ++ (match o.update_ttl with | some t => [flagTok 'T' t] | none => [])
  ++ (if o.no_lru_bump then [bs ("u")] else [])
  ++ (match o.vivify_on_miss_ttl with | some t => [flagTok 'N' t] | none => [])
  ++ (match o.recache_ttl_threshold with | some t => [flagTok 'R' t] | none => [])
  ++ (match o.check_cas with | some t => [flagTok 'C' t] | none => [])

/-- `MetaClient.get`, from the point the executed command's `MetaResult`
is in hand: `EN` means a miss (`None`); otherwise the response flags are
parsed and a `GetResult` assembled; only a present, nonempty payload is
passed to the unmarshal codec `load` with the `f` flag value (default 0).
Returns the outcome and the `mg` command that was sent. -/
def metaClientGet {α : Type} (load : Bytes → Bytes → Int → Except PyErr α)
    (key : Bytes) (o : GetOpts) (result : MetaResult) :
    Except PyErr (Option (GetResult α)) × MetaCommand :=
  let cmd : MetaCommand := { cm := bs ("mg"), key := key, flags := mgFlags o }
  let out : Except PyErr (Option (GetResult α)) :=
    if result.rc = bs ("EN") then Except.ok none
    else
      match parse_flags result.flags with
      | Except.error e => Except.error e
      | Except.ok parsed =>
        let gr : GetResult α :=
          { is_stale := parsed.is_stale
            won_recache := parsed.won_recache
            already_won := parsed.already_won
            cas_token := if o.return_cas then parsed.cas_token else none
            ttl := if o.return_ttl then parsed.ttl else none
            last_access := if o.return_last_access then parsed.last_access else none
            size := if o.return_size then parsed.size else none
            hit_before := if o.return_hit_before then parsed.hit_before else none
            key := parsed.key }
        match result.value with
        | none => Except.ok (some gr)
        | some v =>
          if 0 < v.length then
            match load key v ((parsed.client_flags).getD 0) with
            | Except.ok value => Except.ok (some { gr with value := some value })
            | Except.error e => Except.error e
          else Except.ok (some gr)
  (out, cmd)

/-- `MetaClient.set`, from the marshalled `(raw, client_flags)` pair on:
builds the `ms` command with positional `datalen = len(raw)`, flags
`F<client_flags>` then `T<expire>` when `expire is not None`, and raises
`MemcacheError("set failed: <rc>")` unless the response is `HD`. -/
def metaClientSet (key raw : Bytes) (clientFlags : Int) (expire : Option Int)
    (result : MetaResult) : Except PyErr Unit × MetaCommand :=
  let flags := [flagTok 'F' clientFlags]
    ++ (match expire with | some e => [flagTok 'T' e] | none => [])
  let cmd : MetaCommand :=
    { cm := bs ("ms"), key := key, datalen := some (raw.length : Int)
      flags := flags, value := some raw }
  (if result.rc = bs ("HD") then Except.ok ()
   else Except.error (PyErr.memcacheError (bs ("set failed: ") ++ result.rc)), cmd)

/-- The legacy `memcache.Connection.set`: the `T` flag is guarded by the
TRUTHINESS of `expire` (`if expire:`), so `expire=0` sends no `T`; the
response of `execute_meta_command` is discarded, so no code is checked
and nothing is ever raised. -/
def connectionSet (key raw : Bytes) (clientFlags : Int) (expire : Option Int)
    (_result : MetaResult) : Except PyErr Unit × MetaCommand :=
  let flags := [flagTok 'F' clientFlags]
    ++ (match expire with
        | some e => if e = 0 then [] else [flagTok 'T' e]
        | none => [])
  let cmd : MetaCommand :=
    { cm := bs ("ms"), key := key, datalen := some (raw.length : Int)
      flags := flags, value := some raw }
  (Except.ok (), cmd)

/-- `MetaClient.incr`, from the executed command's `MetaResult` on: `ma`
with `D<delta>`, `v`, then `J<initial>` (and `N<initial_ttl>` only inside
the `initial` branch), then `T<update_ttl>`; `NF` raises
`MemcacheError("key not found")`, any other non-`VA` code raises
`MemcacheError("incr failed: <rc>")`, a missing payload raises, and the
payload is parsed as ASCII decimal (`int(result.value)`). -/
def metaClientIncr (key : Bytes) (delta : Int)
    (initial initialTtl updateTtl : Option Int) (result : MetaResult) :
    Except PyErr Int × MetaCommand :=
  let flags := [flagTok 'D' delta, bs ("v")]
    ++ (match initial with
        | some j =>
          [flagTok 'J' j] ++ (match initialTtl with | some n => [flagTok 'N' n] | none => [])
        | none => [])
    ++ (match updateTtl with | some t => [flagTok 'T' t] | none => [])
  let cmd : MetaCommand := { cm := bs ("ma"), key := key, flags := flags }
  let out : Except PyErr Int :=
    if result.rc = bs ("NF") then Except.error (PyErr.memcacheError (bs ("key not found")))
    else if result.rc ≠ bs ("VA") then
      Except.error (PyErr.memcacheError (bs ("incr failed: ") ++ result.rc))
    else
      match result.value with
      | none => Except.error (PyErr.memcacheError (bs ("incr: no value returned")))
      | some v =>
        match pyInt v with
        | some n => Except.ok n
        | none => Except.error PyErr.valueError
  (out, cmd)

/-- Spec-side helper: the header's datalen field as the spec's amended
grammar writes it, a space and the decimal when present. -/
def dlField : Option Int → Bytes
  | none => []
  | some n => SP :: strBytesOfInt n

/-- Spec-side helper: `(SP token)*` — one space before every joined part. -/
def spJoinTail : List Bytes → Bytes
  | [] => []
  | x :: xs => SP :: x ++ spJoinTail xs

/-- Spec-side helper: the value frame as the amended claim states it —
emitted only for a present, NONEMPTY value. -/
def valueFrame : Option Bytes → Bytes
  | none => []
  | some v => if v = [] then [] else v ++ CRLF

/-- Spec-side definition of the claim's `ma` flag list: `D<delta>`, `v`,
`J<initial>` when initial is provided with `N<initial_ttl>` appended only
when initial is also provided, then `T<update_ttl>` when provided. -/
def incrFlagsSpec (delta : Int) (initial initialTtl updateTtl : Option Int) : List Bytes :=
  [flagTok 'D' delta, bs ("v")]
  ++ (match initial, initialTtl with
      | some j, some n => [flagTok 'J' j, flagTok 'N' n]
      | some j, none => [flagTok 'J' j]
      | none, _ => [])
  ++ (match updateTtl with | some t => [flagTok 'T' t] | none => [])

/-- Spec-side definition of the claim's incr outcome mapping: `NF` raises
the not-found error, `VA` yields the ASCII-decimal payload, anything else
raises the arithmetic failure error. -/
def incrOutcomeSpec (r : MetaResult) : Except PyErr Int :=
  if r.rc = bs ("NF") then Except.error (PyErr.memcacheError (bs ("key not found")))
  else if r.rc = bs ("VA") then
    match r.value with
    | none => Except.error (PyErr.memcacheError (bs ("incr: no value returned")))
    | some v =>
      match pyInt v with
      | some n => Except.ok n
      | none => Except.error PyErr.valueError
  else Except.error (PyErr.memcacheError (bs ("incr failed: ") ++ r.rc))

/-- Helper: joining with spaces equals head plus space-prefixed tail parts. -/
theorem joinSP_cons (x : Bytes) (xs : List Bytes) :
    joinSP (x :: xs) = x ++ spJoinTail xs := by
  induction xs generalizing x with
  | nil => simp [joinSP, spJoinTail]
  | cons y ys ih => simp [joinSP, spJoinTail, ih y]

/-- Helper: `spJoinTail` distributes over append. -/
theorem spJoinTail_append (l1 l2 : List Bytes) :
    spJoinTail (l1 ++ l2) = spJoinTail l1 ++ spJoinTail l2 := by
  induction l1 with
  | nil => simp [spJoinTail]
  | cons x xs ih => simp [spJoinTail, ih]

/-- C1: the claim's intended parse of `b"HD t20 c123\r\n"` (datalen None,
flags `t20`/`c123`, as the repository's own test asserts) does not happen:
because `parts[1][0]` is an `int`, `str(parts[1][0]).isdigit()` is true for
every byte value, so the code attempts `int(b"t20")` and raises
`ValueError`. The other two test vectors behave as the claim states. -/
theorem C1_load_header_digit_check :
    load_header (bs ("HD t20 c123\r\n")) = Except.error PyErr.valueError
    ∧ load_header (bs ("VA 5 f16 c999\r\n")) =
        Except.ok { rc := bs ("VA"), datalen := some 5, flags := [bs ("f16"), bs ("c999")] }
    ∧ load_header (bs ("EN\r\n")) = Except.ok { rc := bs ("EN") } := by
  refine ⟨by decide, by decide, by decide⟩

/-- C6: on `b"CLIENT_ERROR TOO LARGE\r\n"` the code raises `MemcacheError`
with message `ARGE`, not the claimed `TOO LARGE`: `lstrip(b"CLIENT_ERROR ")`
strips the character SET `{C,L,I,E,N,T,_,R,O,space}`, which also eats
`TOO ` and the leading `L` of `LARGE`. -/
theorem C6_client_error_message :
    load_header (bs ("CLIENT_ERROR TOO LARGE\r\n")) =
      Except.error (PyErr.memcacheError (bs ("ARGE")))
    ∧ bs ("ARGE") ≠ bs ("TOO LARGE") := by
  refine ⟨by decide, by decide⟩

/-- C2 counterexample: the serialised header of
`MetaCommand(cm=b"ms", key=b"foo", datalen=3, flags=[b"T10"])` is
`b"ms foo 3 T10 \r\n"` — one extra space byte before the CRLF — not the
claimed `b"ms foo 3 T10\r\n"`; and a present zero-length value emits no
value frame at all (the claim says it emits an empty value plus CRLF). -/
theorem C2_trailing_space_counterexample :
    dump_header { cm := bs ("ms"), key := bs ("foo"), datalen := some 3, flags := [bs ("T10")] }
      = bs ("ms foo 3 T10 \r\n")
    ∧ bs ("ms foo 3 T10 \r\n") ≠ bs ("ms foo 3 T10\r\n")
    ∧ serializeCommand
        { cm := bs ("ms"), key := bs ("foo"), datalen := some 0, flags := [], value := some [] }
      = dump_header { cm := bs ("ms"), key := bs ("foo"), datalen := some 0, flags := [] } := by
  refine ⟨by decide, by decide, by decide⟩

/-- C2 (amended): the serialised request is exactly
`cm SP key [SP datalen] (SP flag)* SP CRLF` — single spaces between
tokens and one space before the CRLF — followed by the value bytes and a
CRLF exactly when the value is present and nonempty; flags keep their
caller-supplied order. -/
theorem C2_serialisation_layout (c : MetaCommand) :
    dump_header c =
      c.cm ++ [SP] ++ c.key ++ dlField c.datalen ++ spJoinTail c.flags ++ [SP] ++ CRLF
    ∧ serializeCommand c = dump_header c ++ valueFrame c.value := by
  constructor
  · cases hd : c.datalen with
    | none =>
      simp [dump_header, hd, dlField, joinSP_cons, spJoinTail_append, spJoinTail]
    | some n =>
      simp [dump_header, hd, dlField, joinSP_cons, spJoinTail_append, spJoinTail]
  · cases hv : c.value with
    | none => simp [serializeCommand, hv, valueFrame]
    | some v => simp [serializeCommand, hv, valueFrame]

/-- C4 counterexample: when both attempts die with a peer reset, the error
surfaced to the caller is the raw `ConnectionResetError` itself — the
library wraps nothing (it has no `TransportError`; its only error class is
`MemcacheError`, and the surfaced error is not of it). -/
theorem C4_no_transport_error_wrap :
    execute_meta_command (fun _ _ => Attempt.raise PyErr.connectionResetError)
        { cm := bs ("mg"), key := bs ("k") }
      = (Except.error PyErr.connectionResetError,
         [{ cm := bs ("mg"), key := bs ("k") }, { cm := bs ("mg"), key := bs ("k") }])
    ∧ (Except.error PyErr.connectionResetError : Except PyErr MetaResult)
        ≠ Except.error (PyErr.memcacheError (bs ("TransportError"))) := by
  refine ⟨by decide, by decide⟩

/-- C4 (amended): a first-attempt failure of class IndexError (which is
how an empty read line and an out-of-range header parse surface),
ConnectionResetError or BrokenPipeError triggers exactly one transparent
reconnect-and-rerun of the same command; a second failure propagates as
that second exception itself (no `TransportError` wrapper exists), with no
third attempt; a successful or non-retriable first attempt is never
retried. -/
theorem C4_retry_exactly_once (cmd : MetaCommand) (rOk : MetaResult) (e1 e2 eN : PyErr)
    (runA runB runC runD : Nat → MetaCommand → Attempt)
    (hret : retriableErr e1 = true) (hnon : retriableErr eN = false)
    (hA0 : runA 0 cmd = Attempt.raise e1) (hA1 : runA 1 cmd = Attempt.ok rOk)
    (hB0 : runB 0 cmd = Attempt.raise e1) (hB1 : runB 1 cmd = Attempt.raise e2)
    (hC0 : runC 0 cmd = Attempt.ok rOk)
    (hD0 : runD 0 cmd = Attempt.raise eN) :
    execute_meta_command runA cmd = (Except.ok rOk, [cmd, cmd])
    ∧ execute_meta_command runB cmd = (Except.error e2, [cmd, cmd])
    ∧ execute_meta_command runC cmd = (Except.ok rOk, [cmd])
    ∧ execute_meta_command runD cmd = (Except.error eN, [cmd]) := by
  refine ⟨?_, ?_, ?_, ?_⟩
  · simp [execute_meta_command, hA0, hA1, hret]
  · simp [execute_meta_command, hB0, hB1, hret]
  · simp [execute_meta_command, hC0]
  · simp [execute_meta_command, hD0, hnon]

/-- C4 witness: a broken pipe on the first attempt, an IndexError on the
rerun; plus the ok / non-retriable scenarios, at concrete inputs. -/
theorem C4_retry_exactly_once_witness :
    execute_meta_command
        (fun i _ => if i = 0 then Attempt.raise PyErr.brokenPipeError
                    else Attempt.ok { rc := bs ("HD") })
        { cm := bs ("ms"), key := bs ("foo") }
      = (Except.ok { rc := bs ("HD") },
         [{ cm := bs ("ms"), key := bs ("foo") }, { cm := bs ("ms"), key := bs ("foo") }])
    ∧ execute_meta_command
        (fun i _ => if i = 0 then Attempt.raise PyErr.brokenPipeError
                    else Attempt.raise PyErr.indexError)
        { cm := bs ("ms"), key := bs ("foo") }
      = (Except.error PyErr.indexError,
         [{ cm := bs ("ms"), key := bs ("foo") }, { cm := bs ("ms"), key := bs ("foo") }])
    ∧ execute_meta_command (fun _ _ => Attempt.ok { rc := bs ("HD") })
        { cm := bs ("ms"), key := bs ("foo") }
      = (Except.ok { rc := bs ("HD") }, [{ cm := bs ("ms"), key := bs ("foo") }])
    ∧ execute_meta_command (fun _ _ => Attempt.raise PyErr.valueError)
        { cm := bs ("ms"), key := bs ("foo") }
      = (Except.error PyErr.valueError, [{ cm := bs ("ms"), key := bs ("foo") }]) :=
  C4_retry_exactly_once { cm := bs ("ms"), key := bs ("foo") } { rc := bs ("HD") }
    PyErr.brokenPipeError PyErr.indexError PyErr.valueError
    (fun i _ => if i = 0 then Attempt.raise PyErr.brokenPipeError
                else Attempt.ok { rc := bs ("HD") })
    (fun i _ => if i = 0 then Attempt.raise PyErr.brokenPipeError
                else Attempt.raise PyErr.indexError)
    (fun _ _ => Attempt.ok { rc := bs ("HD") })
    (fun _ _ => Attempt.raise PyErr.valueError)
    rfl rfl rfl rfl rfl rfl rfl rfl

/-- C5 counterexample: a VA response whose 2 trailer bytes are `XY` rather
than CRLF is accepted without any error — `self.stream.read(2)` consumes
the trailer but never verifies it, so no `ProtocolError` is raised for a
malformed trailer as the claim states. -/
theorem C5_unverified_trailer_counterexample :
    receive_meta_result (bs ("VA 2\r\nabXY"))
      = Except.ok ({ rc := bs ("VA"), datalen := some 2, value := some (bs ("ab")) }, []) := by
  decide

/-- C5 (amended): after a VA header with datalen `n ≥ 0`, exactly `n`
payload bytes are read and then exactly 2 trailer bytes are read and
DISCARDED without verification (a malformed trailer raises nothing); a VA
header lacking datalen raises `MemcacheError`; for every other rc no byte
beyond the header line is consumed. -/
theorem C5_payload_read_behavior (s1 s2 s3 : Bytes) (r1 r2 r3 : MetaResult) (n : Int)
    (h1 : load_header (readline s1).1 = Except.ok r1)
    (h1rc : r1.rc = bs ("VA")) (h1dl : r1.datalen = some n) (hn : 0 ≤ n)
    (h2 : load_header (readline s2).1 = Except.ok r2) (h2rc : r2.rc ≠ bs ("VA"))
    (h3 : load_header (readline s3).1 = Except.ok r3)
    (h3rc : r3.rc = bs ("VA")) (h3dl : r3.datalen = none) :
    receive_meta_result s1
      = Except.ok ({ r1 with value := some ((readline s1).2.take n.toNat) },
                   ((readline s1).2.drop n.toNat).drop 2)
    ∧ receive_meta_result s2 = Except.ok (r2, (readline s2).2)
    ∧ receive_meta_result s3
      = Except.error (PyErr.memcacheError (bs ("invalid response: missing datalen"))) := by
  have hnn : ¬ n < 0 := not_lt.mpr hn
  refine ⟨?_, ?_, ?_⟩
  · simp [receive_meta_result, h1, h1rc, h1dl, readN, hnn]
  · simp [receive_meta_result, h2, h2rc]
  · simp [receive_meta_result, h3, h3rc, h3dl]

/-- C5 witness: a VA with payload `abc` and garbage trailer `XY`, an EN
header followed by unread bytes, and a VA header with no datalen. -/
theorem C5_payload_read_behavior_witness :
    receive_meta_result (bs ("VA 3\r\nabcXYtail"))
      = Except.ok ({ rc := bs ("VA"), datalen := some 3, value := some (bs ("abc")) },
                   bs ("tail"))
    ∧ receive_meta_result (bs ("EN\r\nleftover"))
      = Except.ok ({ rc := bs ("EN") }, bs ("leftover"))
    ∧ receive_meta_result (bs ("VA\r\n"))
      = Except.error (PyErr.memcacheError (bs ("invalid response: missing datalen"))) :=
  C5_payload_read_behavior (bs ("VA 3\r\nabcXYtail")) (bs ("EN\r\nleftover")) (bs ("VA\r\n"))
    { rc := bs ("VA"), datalen := some 3 } { rc := bs ("EN") } { rc := bs ("VA") } 3
    (by decide) (by decide) (by decide) (by decide)
    (by decide) (by decide) (by decide) (by decide) (by decide)

/-- C3 counterexample: `Pool.get` has no try/finally — when the caller's
block raises, the dequeued connection is never re-enqueued (and the size
counter is not decremented), so release is NOT unconditional and the
connection ends neither in the FIFO nor checked out. -/
theorem C3_leak_on_exception_counterexample :
    poolGet (some 23) { size := 1, fifo := [7] } 99 none
        (fun _ => BodyOut.raised (PyErr.other 0))
      = (Except.error (PyErr.other 0), { size := 1, fifo := [] }) := by
  decide

/-- C3 (amended): a connection is re-enqueued into the idle FIFO exactly
when the caller's block returns normally, on each acquisition path of both
pools — non-blocking dequeue, blocked dequeue at the cap, and fresh
creation (whose size increment is kept either way). When the block raises
any exception other than the queue-empty class the generator's except
clause catches, the exception propagates unchanged and the connection is
neither re-enqueued nor discarded with a size decrement (no try/finally,
no BROKEN state, `_size` never decremented); at the two yields inside the
except branch even a block-raised queue-empty propagates. In the one
pathological case — the block raises `queue.Empty` / `asyncio.QueueEmpty`
at the first yield — the except clause catches it inside `__exit__` and
re-runs the acquisition: a timed-out blocked dequeue propagates the fresh
`queue.Empty` / `asyncio.TimeoutError`, and otherwise contextlib raises
`RuntimeError` after the branch's side effects; the connection is still
not released. -/
theorem C3_release_only_on_normal_exit
    (size sizeA sizeB c c2 fresh : Nat) (rest : List Nat)
    (ms : Option Nat) (arr : Option Nat)
    (bN bE bQ bQA : Nat → BodyOut) (e : PyErr)
    (hN : ∀ x, bN x = BodyOut.normal)
    (hE : ∀ x, bE x = BodyOut.raised e)
    (hQ : ∀ x, bQ x = BodyOut.raised PyErr.queueEmpty)
    (hQA : ∀ x, bQA x = BodyOut.raised PyErr.asyncioQueueEmpty)
    (he : e ≠ PyErr.queueEmpty) (he2 : e ≠ PyErr.asyncioQueueEmpty)
    (hcapA : maxReached ms sizeA = true) (hcapB : maxReached ms sizeB = false) :
    poolGet ms { size := size, fifo := c :: rest } fresh arr bN
      = (Except.ok (), { size := size, fifo := rest ++ [c] })
    ∧ poolGet ms { size := size, fifo := c :: rest } fresh arr bE
      = (Except.error e, { size := size, fifo := rest })
    ∧ poolGet ms { size := sizeA, fifo := [] } fresh (some c2) bN
      = (Except.ok (), { size := sizeA, fifo := [c2] })
    ∧ poolGet ms { size := sizeA, fifo := [] } fresh (some c2) bE
      = (Except.error e, { size := sizeA, fifo := [] })
    ∧ poolGet ms { size := sizeA, fifo := [] } fresh (some c2) bQ
      = (Except.error PyErr.queueEmpty, { size := sizeA, fifo := [] })
    ∧ poolGet ms { size := sizeB, fifo := [] } fresh arr bN
      = (Except.ok (), { size := sizeB + 1, fifo := [fresh] })
    ∧ poolGet ms { size := sizeB, fifo := [] } fresh arr bE
      = (Except.error e, { size := sizeB + 1, fifo := [] })
    ∧ poolGet ms { size := sizeB, fifo := [] } fresh arr bQ
      = (Except.error PyErr.queueEmpty, { size := sizeB + 1, fifo := [] })
    ∧ poolGet ms { size := sizeA, fifo := c :: rest } fresh (some c2) bQ
      = (Except.error PyErr.runtimeError, { size := sizeA, fifo := rest })
    ∧ poolGet ms { size := sizeA, fifo := c :: rest } fresh none bQ
      = (Except.error PyErr.queueEmpty, { size := sizeA, fifo := rest })
    ∧ poolGet ms { size := sizeB, fifo := c :: rest } fresh arr bQ
      = (Except.error PyErr.runtimeError, { size := sizeB + 1, fifo := rest })
    ∧ asyncPoolGet ms { size := size, fifo := c :: rest } fresh arr bN
      = (Except.ok (), { size := size, fifo := rest ++ [c] })
    ∧ asyncPoolGet ms { size := size, fifo := c :: rest } fresh arr bE
      = (Except.error e, { size := size, fifo := rest })
    ∧ asyncPoolGet ms { size := sizeA, fifo := [] } fresh (some c2) bN
      = (Except.ok (), { size := sizeA, fifo := [c2] })
    ∧ asyncPoolGet ms { size := sizeA, fifo := [] } fresh (some c2) bE
      = (Except.error e, { size := sizeA, fifo := [] })
    ∧ asyncPoolGet ms { size := sizeA, fifo := [] } fresh (some c2) bQA
      = (Except.error PyErr.asyncioQueueEmpty, { size := sizeA, fifo := [] })
    ∧ asyncPoolGet ms { size := sizeB, fifo := [] } fresh arr bN
      = (Except.ok (), { size := sizeB + 1, fifo := [fresh] })
    ∧ asyncPoolGet ms { size := sizeB, fifo := [] } fresh arr bE
      = (Except.error e, { size := sizeB + 1, fifo := [] })
    ∧ asyncPoolGet ms { size := sizeB, fifo := [] } fresh arr bQA
      = (Except.error PyErr.asyncioQueueEmpty, { size := sizeB + 1, fifo := [] })
    ∧ asyncPoolGet ms { size := sizeA, fifo := c :: rest } fresh (some c2) bQA
      = (Except.error PyErr.runtimeError, { size := sizeA, fifo := rest })
    ∧ asyncPoolGet ms { size := sizeA, fifo := c :: rest } fresh none bQA
      = (Except.error PyErr.asyncioTimeoutError, { size := sizeA, fifo := rest })
    ∧ asyncPoolGet ms { size := sizeB, fifo := c :: rest } fresh arr bQA
      = (Except.error PyErr.runtimeError, { size := sizeB + 1, fifo := rest }) := by
  refine ⟨?_, ?_, ?_, ?_, ?_, ?_, ?_, ?_, ?_, ?_, ?_,
          ?_, ?_, ?_, ?_, ?_, ?_, ?_, ?_, ?_, ?_, ?_⟩ <;>
    simp [poolGet, asyncPoolGet, poolGetEmptyBranch, asyncPoolGetEmptyBranch,
          hN, hE, hQ, hQA, he, he2, hcapA, hcapB]

/-- C3 witness: a pool capped at 2 exercising every path of both pools —
dequeue, blocked handoff and fresh creation, with a normally returning
block, a KeyError-like raising block, and a queue-empty raising block. -/
theorem C3_release_only_on_normal_exit_witness :
    poolGet (some 2) { size := 5, fifo := [7] } 8 none (fun _ => BodyOut.normal)
      = (Except.ok (), { size := 5, fifo := [7] })
    ∧ poolGet (some 2) { size := 5, fifo := [7] } 8 none
        (fun _ => BodyOut.raised (PyErr.other 3))
      = (Except.error (PyErr.other 3), { size := 5, fifo := [] })
    ∧ poolGet (some 2) { size := 2, fifo := [] } 8 (some 9) (fun _ => BodyOut.normal)
      = (Except.ok (), { size := 2, fifo := [9] })
    ∧ poolGet (some 2) { size := 2, fifo := [] } 8 (some 9)
        (fun _ => BodyOut.raised (PyErr.other 3))
      = (Except.error (PyErr.other 3), { size := 2, fifo := [] })
    ∧ poolGet (some 2) { size := 2, fifo := [] } 8 (some 9)
        (fun _ => BodyOut.raised PyErr.queueEmpty)
      = (Except.error PyErr.queueEmpty, { size := 2, fifo := [] })
    ∧ poolGet (some 2) { size := 0, fifo := [] } 8 none (fun _ => BodyOut.normal)
      = (Except.ok (), { size := 1, fifo := [8] })
    ∧ poolGet (some 2) { size := 0, fifo := [] } 8 none
        (fun _ => BodyOut.raised (PyErr.other 3))
      = (Except.error (PyErr.other 3), { size := 1, fifo := [] })
    ∧ poolGet (some 2) { size := 0, fifo := [] } 8 none
        (fun _ => BodyOut.raised PyErr.queueEmpty)
      = (Except.error PyErr.queueEmpty, { size := 1, fifo := [] })
    ∧ poolGet (some 2) { size := 2, fifo := [7] } 8 (some 9)
        (fun _ => BodyOut.raised PyErr.queueEmpty)
      = (Except.error PyErr.runtimeError, { size := 2, fifo := [] })
    ∧ poolGet (some 2) { size := 2, fifo := [7] } 8 none
        (fun _ => BodyOut.raised PyErr.queueEmpty)
      = (Except.error PyErr.queueEmpty, { size := 2, fifo := [] })
    ∧ poolGet (some 2) { size := 0, fifo := [7] } 8 none
        (fun _ => BodyOut.raised PyErr.queueEmpty)
      = (Except.error PyErr.runtimeError, { size := 1, fifo := [] })
    ∧ asyncPoolGet (some 2) { size := 5, fifo := [7] } 8 none (fun _ => BodyOut.normal)
      = (Except.ok (), { size := 5, fifo := [7] })
    ∧ asyncPoolGet (some 2) { size := 5, fifo := [7] } 8 none
        (fun _ => BodyOut.raised (PyErr.other 3))
      = (Except.error (PyErr.other 3), { size := 5, fifo := [] })
    ∧ asyncPoolGet (some 2) { size := 2, fifo := [] } 8 (some 9) (fun _ => BodyOut.normal)
      = (Except.ok (), { size := 2, fifo := [9] })
    ∧ asyncPoolGet (some 2) { size := 2, fifo := [] } 8 (some 9)
        (fun _ => BodyOut.raised (PyErr.other 3))
      = (Except.error (PyErr.other 3), { size := 2, fifo := [] })
    ∧ asyncPoolGet (some 2) { size := 2, fifo := [] } 8 (some 9)
        (fun _ => BodyOut.raised PyErr.asyncioQueueEmpty)
      = (Except.error PyErr.asyncioQueueEmpty, { size := 2, fifo := [] })
    ∧ asyncPoolGet (some 2) { size := 0, fifo := [] } 8 none (fun _ => BodyOut.normal)
      = (Except.ok (), { size := 1, fifo := [8] })
    ∧ asyncPoolGet (some 2) { size := 0, fifo := [] } 8 none
        (fun _ => BodyOut.raised (PyErr.other 3))
      = (Except.error (PyErr.other 3), { size := 1, fifo := [] })
    ∧ asyncPoolGet (some 2) { size := 0, fifo := [] } 8 none
        (fun _ => BodyOut.raised PyErr.asyncioQueueEmpty)
      = (Except.error PyErr.asyncioQueueEmpty, { size := 1, fifo := [] })
    ∧ asyncPoolGet (some 2) { size := 2, fifo := [7] } 8 (some 9)
        (fun _ => BodyOut.raised PyErr.asyncioQueueEmpty)
      = (Except.error PyErr.runtimeError, { size := 2, fifo := [] })
    ∧ asyncPoolGet (some 2) { size := 2, fifo := [7] } 8 none
        (fun _ => BodyOut.raised PyErr.asyncioQueueEmpty)
      = (Except.error PyErr.asyncioTimeoutError, { size := 2, fifo := [] })
    ∧ asyncPoolGet (some 2) { size := 0, fifo := [7] } 8 none
        (fun _ => BodyOut.raised PyErr.asyncioQueueEmpty)
      = (Except.error PyErr.runtimeError, { size := 1, fifo := [] }) :=
  C3_release_only_on_normal_exit 5 2 0 7 9 8 [] (some 2) none
    (fun _ => BodyOut.normal) (fun _ => BodyOut.raised (PyErr.other 3))
    (fun _ => BodyOut.raised PyErr.queueEmpty)
    (fun _ => BodyOut.raised PyErr.asyncioQueueEmpty) (PyErr.other 3)
    (fun _ => rfl) (fun _ => rfl) (fun _ => rfl) (fun _ => rfl)
    (by decide) (by decide) (by decide) (by decide)
/-- C9 counterexample: with `pool_size=1`, the single connection held and
nothing released within the timeout, the blocking acquire fails with the
STDLIB `queue.Empty` (exactly as the `Memcache` docstring and the repo's
`test_pool_timeout` say), not with any library `PoolTimeout` error — no
such class exists; the library's only error class is `MemcacheError`. -/
theorem C9_queue_empty_counterexample :
    poolGet (some 1) { size := 1, fifo := [] } 0 none (fun _ => BodyOut.normal)
      = (Except.error PyErr.queueEmpty, { size := 1, fifo := [] })
    ∧ ∀ msg : Bytes, PyErr.queueEmpty ≠ PyErr.memcacheError msg := by
  exact ⟨by decide, fun msg h => by cases h⟩

/-- C9 (amended): whenever the idle FIFO is empty and the size counter has
reached a truthy `max_size`, acquire blocks on the idle queue and, when
nothing arrives in time, fails by propagating the queue's own timeout
error — stdlib `queue.Empty` in the blocking pool, `asyncio.TimeoutError`
(from `asyncio.wait_for`) in the async pool — leaving the pool unchanged. -/
theorem C9_timeout_error_class (size fresh : Nat) (ms : Option Nat)
    (body : Nat → BodyOut) (hcap : maxReached ms size = true) :
    poolGet ms { size := size, fifo := [] } fresh none body
      = (Except.error PyErr.queueEmpty, { size := size, fifo := [] })
    ∧ asyncPoolGet ms { size := size, fifo := [] } fresh none body
      = (Except.error PyErr.asyncioTimeoutError, { size := size, fifo := [] }) := by
  refine ⟨?_, ?_⟩
  · simp [poolGet, poolGetEmptyBranch, hcap]
  · simp [asyncPoolGet, asyncPoolGetEmptyBranch, hcap]

/-- C9 witness: a pool capped at 2 with both connections out. -/
theorem C9_timeout_error_class_witness :
    poolGet (some 2) { size := 2, fifo := [] } 4 none (fun _ => BodyOut.normal)
      = (Except.error PyErr.queueEmpty, { size := 2, fifo := [] })
    ∧ asyncPoolGet (some 2) { size := 2, fifo := [] } 4 none (fun _ => BodyOut.normal)
      = (Except.error PyErr.asyncioTimeoutError, { size := 2, fifo := [] }) :=
  C9_timeout_error_class 2 4 (some 2) (fun _ => BodyOut.normal) (by decide)

/-- C7 counterexample: the legacy `memcache.Connection.set` (one of the two
cited `set` implementations) returns unit on an `NS` response instead of
raising, and with `expire=0` provided it sends no `T` flag (`if expire:`
tests truthiness). -/
theorem C7_legacy_set_counterexample :
    (connectionSet (bs ("k")) (bs ("v")) 0 (some 0) { rc := bs ("NS") }).1 = Except.ok ()
    ∧ (connectionSet (bs ("k")) (bs ("v")) 0 (some 0) { rc := bs ("NS") }).2.flags
        = [flagTok 'F' 0] := by
  refine ⟨by decide, by decide⟩

/-- C7 (amended): `MetaClient.set` behaves as the claim states — one `ms`
command with positional datalen `len(bytes)`, flag `F<client_flag>`,
`T<expire>` exactly when expire is provided, unit on `HD` and a
`MemcacheError("set failed: <rc>")` on any other rc; the legacy
`memcache.Connection.set` builds the same command except that the `T` flag
is guarded by truthiness (dropped for `expire=0`), and it ignores the
response code entirely, never raising. -/
theorem C7_set_behavior (key raw : Bytes) (cf e : Int) (resOk resBad : MetaResult)
    (hOk : resOk.rc = bs ("HD")) (hBad : resBad.rc ≠ bs ("HD")) :
    metaClientSet key raw cf (some e) resOk
      = (Except.ok (), { cm := bs ("ms"), key := key, datalen := some (raw.length : Int)
                         flags := [flagTok 'F' cf, flagTok 'T' e], value := some raw })
    ∧ metaClientSet key raw cf none resBad
      = (Except.error (PyErr.memcacheError (bs ("set failed: ") ++ resBad.rc)),
         { cm := bs ("ms"), key := key, datalen := some (raw.length : Int)
           flags := [flagTok 'F' cf], value := some raw })
    ∧ connectionSet key raw cf (some e) resBad
      = (Except.ok (), { cm := bs ("ms"), key := key, datalen := some (raw.length : Int)
                         flags := [flagTok 'F' cf] ++ (if e = 0 then [] else [flagTok 'T' e])
                         value := some raw })
    ∧ connectionSet key raw cf none resOk
      = (Except.ok (), { cm := bs ("ms"), key := key, datalen := some (raw.length : Int)
                         flags := [flagTok 'F' cf], value := some raw }) := by
  refine ⟨?_, ?_, ?_, ?_⟩
  · simp [metaClientSet, hOk]
  · simp [metaClientSet, hBad]
  · simp [connectionSet]
  · simp [connectionSet]

/-- C7 witness: storing `bar` under `foo` with client flag 16 and
expire 10; an `HD` response succeeds, an `NS` response raises. -/
theorem C7_set_behavior_witness :
    metaClientSet (bs ("foo")) (bs ("bar")) 16 (some 10) { rc := bs ("HD") }
      = (Except.ok (), { cm := bs ("ms"), key := bs ("foo"), datalen := some 3
                         flags := [flagTok 'F' 16, flagTok 'T' 10], value := some (bs ("bar")) })
    ∧ metaClientSet (bs ("foo")) (bs ("bar")) 16 none { rc := bs ("NS") }
      = (Except.error (PyErr.memcacheError (bs ("set failed: NS"))),
         { cm := bs ("ms"), key := bs ("foo"), datalen := some 3
           flags := [flagTok 'F' 16], value := some (bs ("bar")) })
    ∧ connectionSet (bs ("foo")) (bs ("bar")) 16 (some 10) { rc := bs ("NS") }
      = (Except.ok (), { cm := bs ("ms"), key := bs ("foo"), datalen := some 3
                         flags := [flagTok 'F' 16, flagTok 'T' 10], value := some (bs ("bar")) })
    ∧ connectionSet (bs ("foo")) (bs ("bar")) 16 none { rc := bs ("HD") }
      = (Except.ok (), { cm := bs ("ms"), key := bs ("foo"), datalen := some 3
                         flags := [flagTok 'F' 16], value := some (bs ("bar")) }) :=
  C7_set_behavior (bs ("foo")) (bs ("bar")) 16 10 { rc := bs ("HD") } { rc := bs ("NS") }
    (by decide) (by decide)

/-- C8: `MetaClient.incr` sends exactly the claimed `ma` command — flags
`D<delta>` and `v`, plus `J<initial>` when initial is provided (with
`N<initial_ttl>` appended only in that case), plus `T<update_ttl>` when
provided — and maps the response exactly as claimed: `NF` raises the
not-found `MemcacheError`, any other non-`VA` rc raises the arithmetic
failure `MemcacheError`, and on `VA` the returned integer is the ASCII
decimal in the payload. -/
theorem C8_incr_command_and_outcome (key : Bytes) (delta : Int)
    (initial initialTtl updateTtl : Option Int) (r : MetaResult) :
    metaClientIncr key delta initial initialTtl updateTtl r
      = (incrOutcomeSpec r,
         { cm := bs ("ma"), key := key
           flags := incrFlagsSpec delta initial initialTtl updateTtl }) := by
  have hflags :
      ([flagTok 'D' delta, bs ("v")]
        ++ (match initial with
            | some j =>
              [flagTok 'J' j] ++ (match initialTtl with | some n => [flagTok 'N' n] | none => [])
            | none => [])
        ++ (match updateTtl with | some t => [flagTok 'T' t] | none => []))
        = incrFlagsSpec delta initial initialTtl updateTtl := by
    cases initial <;> cases initialTtl <;> simp [incrFlagsSpec]
  have hout :
      (if r.rc = bs ("NF") then
        Except.error (PyErr.memcacheError (bs ("key not found")))
       else if r.rc ≠ bs ("VA") then
        Except.error (PyErr.memcacheError (bs ("incr failed: ") ++ r.rc))
       else
        match r.value with
        | none => Except.error (PyErr.memcacheError (bs ("incr: no value returned")))
        | some v =>
          match pyInt v with
          | some n => Except.ok n
          | none => Except.error PyErr.valueError)
        = incrOutcomeSpec r := by
    by_cases h1 : r.rc = bs ("NF")
    · simp [incrOutcomeSpec, h1]
    · by_cases h2 : r.rc = bs ("VA")
      · simp [incrOutcomeSpec, h1, h2]
      · simp [incrOutcomeSpec, h1, h2]
  simp only [metaClientIncr]
  rw [hflags, hout]

/-- Helper: any successfully received result whose header was `VA` with
`datalen = 0` carries the empty payload `some []`. -/
theorem receive_va_zero_value {s rest : Bytes} {r : MetaResult}
    (h : receive_meta_result s = Except.ok (r, rest))
    (hrc : r.rc = bs ("VA")) (hdl : r.datalen = some 0) :
    r.value = some [] := by
  simp only [receive_meta_result] at h
  cases hl : load_header (readline s).1 with
  | error e => rw [hl] at h; cases h
  | ok r0 =>
    rw [hl] at h
    dsimp only at h
    by_cases hva : r0.rc = bs ("VA")
    · rw [if_pos hva] at h
      cases hdl0 : r0.datalen with
      | none => rw [hdl0] at h; cases h
      | some n =>
        rw [hdl0] at h
        dsimp only at h
        have hr : r = { rc := r0.rc, datalen := some n, flags := r0.flags
                        value := some (readN n (readline s).2).1 } := by
          have := (Prod.mk.injEq _ _ _ _).mp (Except.ok.inj h)
          exact this.1.symm
        have hn0 : n = 0 := by
          have hd2 : r.datalen = some n := by rw [hr]
          rw [hdl] at hd2
          exact (Option.some.inj hd2).symm
        rw [hr, hn0]
        simp [readN]
    · rw [if_neg hva] at h
      have hr : r = r0 := by
        have := (Prod.mk.injEq _ _ _ _).mp (Except.ok.inj h)
        exact this.1.symm
      rw [hr] at hrc
      exact absurd hrc hva

/-- C10: a hit whose `VA` header carries `datalen = 0` reaches the caller
as a `GetResult` whose `value` field is `None`: the zero-length payload is
never handed to the unmarshal codec (the outcome is the same for EVERY
codec), so through `value` alone an empty stored value looks exactly like
a hit whose value was not returned. -/
theorem C10_empty_value_is_none {α : Type}
    (load load2 : Bytes → Bytes → Int → Except PyErr α)
    (key : Bytes) (o : GetOpts) (s rest : Bytes) (r : MetaResult) (parsed : ParsedFlags)
    (hrecv : receive_meta_result s = Except.ok (r, rest))
    (hrc : r.rc = bs ("VA")) (hdl : r.datalen = some 0)
    (hpf : parse_flags r.flags = Except.ok parsed) :
    (∃ gr : GetResult α, (metaClientGet load key o r).1 = Except.ok (some gr)
      ∧ gr.value = none)
    ∧ (metaClientGet load key o r).1 = (metaClientGet load2 key o r).1 := by
  have hv : r.value = some [] := receive_va_zero_value hrecv hrc hdl
  have hne : r.rc ≠ bs ("EN") := by rw [hrc]; decide
  constructor
  · refine ⟨{ is_stale := parsed.is_stale
              won_recache := parsed.won_recache
              already_won := parsed.already_won
              cas_token := if o.return_cas then parsed.cas_token else none
              ttl := if o.return_ttl then parsed.ttl else none
              last_access := if o.return_last_access then parsed.last_access else none
              size := if o.return_size then parsed.size else none
              hit_before := if o.return_hit_before then parsed.hit_before else none
              key := parsed.key }, ?_, rfl⟩
    simp [metaClientGet, hne, hpf, hv]
  · simp [metaClientGet, hne, hpf, hv]

/-- C10 witness: the stream `VA 0\r\n\r\n` with two codecs that disagree
everywhere — the result is the same, with no value. -/
theorem C10_empty_value_is_none_witness :
    (metaClientGet (fun _ v _ => Except.ok v) (bs ("k")) {}
        { rc := bs ("VA"), datalen := some 0, value := some [] }).1
      = (metaClientGet (fun _ _ _ => Except.error PyErr.valueError) (bs ("k")) {}
          { rc := bs ("VA"), datalen := some 0, value := some [] }).1 :=
  (C10_empty_value_is_none (fun _ v _ => Except.ok v)
    (fun _ _ _ => Except.error PyErr.valueError) (bs ("k")) {}
    (bs ("VA 0\r\n\r\n")) []
    { rc := bs ("VA"), datalen := some 0, value := some [] } {}
    (by decide) (by decide) (by decide) (by decide)).2
